import Mathlib

/-!
Verification of the deployml deployment orchestration core.

Part 1 embeds `src/deployml/utils/kubernetes_local.py` shallowly: each
`subprocess.run` invocation is resolved against an environment `Env` that
records which binaries are installed and, per call index, the exit code and
stdout a spawned process produces.  A run of a function yields its Python
return value together with the ordered trace of attempted subprocess argv
vectors, so properties about which external calls were made (and in which
order) become properties of the trace.

Part 2 models, from the specification, the Stack State Store / Orchestrator /
Teardown Scheduler operations whose implementation modules
(`deployml.api`, `deployml.notebook`) are only imported, not present, in the
sources: `CompareAndSwap`, `Teardown`, `UpdateTeardownSchedule`,
`GetTeardownStatus`.
-/

namespace DeployML

/-- Outcome of one attempted `subprocess.run` invocation: `missing` stands for
the `FileNotFoundError` raised when the binary does not exist, `completed`
carries the process exit code and captured stdout. -/
inductive CallRes where
  | missing : CallRes
  | completed : Int → String → CallRes
deriving DecidableEq, Repr

/-- The external environment a run executes in: which binaries are on PATH,
and what exit code / stdout the i-th spawned process of the run produces. -/
structure Env where
  kubectlPresent : Bool
  minikubePresent : Bool
  rc : Nat → Int
  out : Nat → String

/-- Whether the binary named by the head of the argv vector is installed. -/
def binaryPresent (env : Env) (argv : List String) : Bool :=
  match argv.head? with
  | some "kubectl" => env.kubectlPresent
  | some "minikube" => env.minikubePresent
  | _ => true

/-- Resolve the `idx`-th `subprocess.run` call of a run: `FileNotFoundError`
when the binary is absent, otherwise the environment-chosen exit code and
stdout. -/
def Env.exec (env : Env) (idx : Nat) (argv : List String) : CallRes :=
  if binaryPresent env argv then CallRes.completed (env.rc idx) (env.out idx)
  else CallRes.missing

/-- Filesystem facts `deploy_fastapi_to_minikube` tests before spawning
anything: `manifest_dir.exists()`, `deployment.yaml` present, `service.yaml`
present. -/
structure FS where
  manifestDirExists : Bool
  deploymentExists : Bool
  serviceExists : Bool
deriving DecidableEq, Repr

/-- Return value of `deploy_fastapi_to_minikube` (a Python bool) together
with the ordered argv trace of every subprocess invocation it attempted. -/
structure DeployResult where
  ok : Bool
  trace : List (List String)
deriving DecidableEq, Repr

/-- `["kubectl", "apply", "-f", <dir>/deployment.yaml]`. -/
def applyDeploymentCmd (dir : String) : List String :=
  ["kubectl", "apply", "-f", dir ++ "/deployment.yaml"]

/-- `["kubectl", "apply", "-f", <dir>/service.yaml]`. -/
def applyServiceCmd (dir : String) : List String :=
  ["kubectl", "apply", "-f", dir ++ "/service.yaml"]

/-- The service-URL lookup `minikube service <stem> --url`; the source
computes the name as `service_file.stem.replace("service", "service")`,
which is the string `service`. -/
def serviceUrlCmd : List String :=
  ["minikube", "service", "service", "--url"]

/-- The NodePort fallback query (`kubectl get svc -o jsonpath=...`). -/
def getNodePortCmd : List String :=
  ["kubectl", "get", "svc", "-o",
    "jsonpath=\x27\x7b.items[?(@.spec.type==\x22NodePort\x22)].spec.ports[0].nodePort\x7d\x27"]

/-- `["minikube", "ip"]`, used to assemble the fallback URL. -/
def minikubeIpCmd : List String := ["minikube", "ip"]

/-- Final status display `kubectl get pods -l app=fastapi`. -/
def getPodsCmd : List String := ["kubectl", "get", "pods", "-l", "app=fastapi"]

/-- Final status display `kubectl get svc -l app=fastapi`. -/
def getSvcCmd : List String := ["kubectl", "get", "svc", "-l", "app=fastapi"]

/-- The commands that can appear after the two `kubectl apply` calls. -/
def tailCmds : List (List String) :=
  [serviceUrlCmd, getNodePortCmd, minikubeIpCmd, getPodsCmd, getSvcCmd]

/-- The closing `kubectl get pods` / `kubectl get svc` status displays.  They
run inside the `try` block, so a missing binary still raises
`FileNotFoundError` and yields `False`; their exit codes are ignored. -/
def statusChecks (env : Env) (idx : Nat) (acc : List (List String)) :
    DeployResult :=
  match env.exec idx getPodsCmd with
  | CallRes.missing => ⟨false, acc ++ [getPodsCmd]⟩
  | CallRes.completed _ _ =>
    match env.exec (idx + 1) getSvcCmd with
    | CallRes.missing => ⟨false, acc ++ [getPodsCmd, getSvcCmd]⟩
    | CallRes.completed _ _ => ⟨true, acc ++ [getPodsCmd, getSvcCmd]⟩

/-- The part of `deploy_fastapi_to_minikube` after both `kubectl apply`
calls succeeded: the `minikube service --url` lookup (exit code inspected but
not `check`-ed), on nonzero exit the NodePort fallback, then the status
displays.  Only a `FileNotFoundError` (missing binary) can make this part
return `False`. -/
def serviceUrlPhase (env : Env) (acc : List (List String)) : DeployResult :=
  match env.exec 2 serviceUrlCmd with
  | CallRes.missing => ⟨false, acc ++ [serviceUrlCmd]⟩
  | CallRes.completed rc2 _ =>
    if rc2 = 0 then
      statusChecks env 3 (acc ++ [serviceUrlCmd])
    else
      match env.exec 3 getNodePortCmd with
      | CallRes.missing => ⟨false, acc ++ [serviceUrlCmd, getNodePortCmd]⟩
      | CallRes.completed rc3 _ =>
        if rc3 = 0 then
          match env.exec 4 minikubeIpCmd with
          | CallRes.missing =>
            ⟨false, acc ++ [serviceUrlCmd, getNodePortCmd, minikubeIpCmd]⟩
          | CallRes.completed _ _ =>
            statusChecks env 5 (acc ++ [serviceUrlCmd, getNodePortCmd, minikubeIpCmd])
        else
          statusChecks env 4 (acc ++ [serviceUrlCmd, getNodePortCmd])

/-- Shallow embedding of `deploy_fastapi_to_minikube(manifest_dir)`:
precondition checks spawn nothing; the two `kubectl apply` calls run with
`check=True`, so a nonzero exit raises `CalledProcessError` and a missing
binary raises `FileNotFoundError`, both caught and turned into `False`;
afterwards `serviceUrlPhase` runs and the function returns `True` unless a
binary goes missing. -/
def deploy_fastapi_to_minikube (fs : FS) (dir : String) (env : Env) :
    DeployResult :=
  if !fs.manifestDirExists then ⟨false, []⟩
  else if !(fs.deploymentExists && fs.serviceExists) then ⟨false, []⟩
  else
    match env.exec 0 (applyDeploymentCmd dir) with
    | CallRes.missing => ⟨false, [applyDeploymentCmd dir]⟩
    | CallRes.completed rc0 _ =>
      if rc0 ≠ 0 then ⟨false, [applyDeploymentCmd dir]⟩
      else
        match env.exec 1 (applyServiceCmd dir) with
        | CallRes.missing =>
          ⟨false, [applyDeploymentCmd dir, applyServiceCmd dir]⟩
        | CallRes.completed rc1 _ =>
          if rc1 ≠ 0 then
            ⟨false, [applyDeploymentCmd dir, applyServiceCmd dir]⟩
          else
            serviceUrlPhase env [applyDeploymentCmd dir, applyServiceCmd dir]

/-- Shallow embedding of `start_minikube()`: one `minikube start` call with
`check=True`; `True` exactly when the binary exists and exits 0. -/
def start_minikube (env : Env) : Bool :=
  match env.exec 0 ["minikube", "start"] with
  | CallRes.missing => false
  | CallRes.completed rc _ => rc = 0

/-- A command that would delete or destroy a cluster resource (`kubectl
delete ...` or any destroy verb). -/
def isDestroyCmd (c : List String) : Bool :=
  c.any (fun s => s == "delete" || s == "destroy")

/-- A command that would check or wait for resource readiness
(`kubectl rollout status`, `kubectl wait`, ...). -/
def isReadinessCmd (c : List String) : Bool :=
  c.any (fun s => s == "rollout" || s == "wait")

/-- Environment in which every spawned process exits 0. -/
def envAllZero : Env := ⟨true, true, fun _ => 0, fun _ => ""⟩

/-- Environment in which the second call (the `service.yaml` apply) exits 1
and every other call exits 0. -/
def envServiceApplyFails : Env :=
  ⟨true, true, fun i => if i = 1 then 1 else 0, fun _ => ""⟩

/-- Environment in which the first call (the `deployment.yaml` apply)
exits 1. -/
def envDeploymentApplyFails : Env :=
  ⟨true, true, fun i => if i = 0 then 1 else 0, fun _ => ""⟩

/-- Environment in which the `minikube` binary is not installed but
`kubectl` is, and every spawned process exits 0. -/
def envNoMinikube : Env := ⟨true, false, fun _ => 0, fun _ => ""⟩

/-- Environment in which every binary exists and every process exits 1. -/
def envAllFail : Env := ⟨true, true, fun _ => 1, fun _ => ""⟩

/-- Environment in which every spawned process exits 0 and prints `ok`. -/
def envAllZeroOut : Env := ⟨true, true, fun _ => 0, fun _ => "ok"⟩

/-- Environment in which the second call (the `service.yaml` apply) exits 2
and every other call exits 0. -/
def envServiceApplyFails2 : Env :=
  ⟨true, true, fun i => if i = 1 then 2 else 0, fun _ => ""⟩

/-- Manifest directory and both manifest files present. -/
def fsAll : FS := ⟨true, true, true⟩

/-- Manifest directory absent. -/
def fsNoDir : FS := ⟨false, true, true⟩

/-- `service.yaml` missing from the manifest directory. -/
def fsNoService : FS := ⟨true, true, false⟩

/-- Modelled from the spec: the lifecycle states of a Stack (§3); the
implementing module `deployml.notebook` / `deployml.api` is imported by
`deployml/__init__.py` but absent from the sources. -/
inductive StackState where
  | Planned | Provisioning | Running | TearingDown | Destroyed | Failed
deriving DecidableEq, Repr

/-- Modelled from the spec: the lifecycle states of a Resource (§3). -/
inductive ResourceState where
  | Pending | Creating | Ready | Destroying | Destroyed | Errored
deriving DecidableEq, Repr

/-- Modelled from the spec: one infrastructure unit owned by a Stack (§3). -/
structure Resource where
  kind : String
  externalRef : String
  state : ResourceState
deriving DecidableEq, Repr

/-- Modelled from the spec: a named deployment unit with ordered resources,
lifecycle state, teardown deadline and service URL map (§3). -/
structure Stack where
  name : String
  state : StackState
  resources : List Resource
  teardownDeadline : Option Int
  serviceURLs : List (String × String)
deriving DecidableEq, Repr

/-- Lookup in an association list keyed by stack name. -/
def assocGet {β : Type} : List (String × β) → String → Option β
  | [], _ => none
  | (k, v) :: rest, n => if k = n then some v else assocGet rest n

/-- Replace the value stored under a key in an association list; keys not
present are not inserted. -/
def assocSet {β : Type} : List (String × β) → String → β → List (String × β)
  | [], _, _ => []
  | (k, v) :: rest, n, x =>
    if k = n then (k, x) :: assocSet rest n x
    else (k, v) :: assocSet rest n x

/-- Modelled from the spec: the Stack State Store, one record per stack name
(§4.1, §6); the implementing module is absent from the sources. -/
abbrev Store : Type := List (String × Stack)

/-- `Get(name)` on the Store. -/
def storeGet (st : Store) (n : String) : Option Stack := assocGet st n

/-- Errors of the Store write primitives (§4.1, §7). -/
inductive StoreError where
  | NotFound | AlreadyExists | Conflict
deriving DecidableEq, Repr

/-- Modelled from the spec: `CompareAndSwap(name, expectedState,
newStackSnapshot)` atomically replaces the record only if the currently
stored state equals `expectedState`, and fails with `Conflict`
otherwise (§4.1). -/
def compareAndSwap (st : Store) (n : String) (expected : StackState)
    (snap : Stack) : Except StoreError Store :=
  match storeGet st n with
  | none => Except.error StoreError.NotFound
  | some s =>
    if s.state = expected then Except.ok (assocSet st n snap)
    else Except.error StoreError.Conflict

/-- Errors the Orchestrator surfaces to callers (§4.3, §7). -/
inductive OrchError where
  | NotFound | Busy
deriving DecidableEq, Repr

/-- Modelled from the spec: every Orchestrator state transition goes through
the Store CAS, and a `Conflict` response is surfaced as a retryable `Busy`
error rather than overwriting (§4.3). -/
def orchTransition (st : Store) (n : String) (expected : StackState)
    (snap : Stack) : Except OrchError Store :=
  match compareAndSwap st n expected snap with
  | Except.ok st2 => Except.ok st2
  | Except.error StoreError.Conflict => Except.error OrchError.Busy
  | Except.error _ => Except.error OrchError.NotFound

/-- Error kinds a Provisioning Driver call can fail with (§4.2). -/
inductive DriverErr where
  | Transient | Permanent
deriving DecidableEq, Repr

/-- Modelled from the spec: one best-effort `Destroy` Driver call for a
resource; destroying an already-destroyed/absent resource is success
(§4.2), a failure is collected (with the resource kind) and leaves the
resource state for a later resumed teardown (§4.3). -/
def destroyResource (drv : Resource → Option DriverErr) (r : Resource) :
    Resource × Option (String × DriverErr) :=
  if r.state = ResourceState.Destroyed then (r, none)
  else
    match drv r with
    | none => ({ r with state := ResourceState.Destroyed }, none)
    | some e => (r, some (r.kind, e))

/-- Best-effort destruction of a list of resources in list order, collecting
the per-resource failures. -/
def destroySeq (drv : Resource → Option DriverErr) :
    List Resource → List Resource × List (String × DriverErr)
  | [] => ([], [])
  | r :: rs =>
    let p := destroyResource drv r
    let q := destroySeq drv rs
    (p.1 :: q.1, (match p.2 with | some x => [x] | none => []) ++ q.2)

/-- Result of an Orchestrator `Teardown` call (§4.3). -/
inductive TeardownOutcome where
  | success
  | notFound
  | incomplete (errs : List (String × DriverErr))
deriving DecidableEq, Repr

/-- Modelled from the spec: `Teardown(name)` fails `NotFound` if absent,
no-ops returning success if already `Destroyed`, otherwise destroys the
resources in reverse dependency order best-effort and moves the Stack to
`Destroyed` when every resource reports destroyed, leaving it in
`TearingDown` with the accumulated error list otherwise (§4.3). -/
def teardown (st : Store) (drv : Resource → Option DriverErr) (n : String) :
    TeardownOutcome × Store :=
  match storeGet st n with
  | none => (TeardownOutcome.notFound, st)
  | some s =>
    if s.state = StackState.Destroyed then (TeardownOutcome.success, st)
    else
      let p := destroySeq drv s.resources.reverse
      if p.2.isEmpty then
        (TeardownOutcome.success,
          assocSet st n
            { s with state := StackState.Destroyed,
                     resources := p.1.reverse, serviceURLs := [] })
      else
        (TeardownOutcome.incomplete p.2,
          assocSet st n
            { s with state := StackState.TearingDown,
                     resources := p.1.reverse })

/-- Modelled from the spec: the mutable deadline policy attached to a
Stack (§3). -/
structure TeardownSchedule where
  stackName : String
  deadline : Option Int
  lastModifiedAt : Int
deriving DecidableEq, Repr

/-- Modelled from the spec: per-stack TeardownSchedule records, stored
independently of the Stack record (§4.4, §6). -/
abbrev SchedStore : Type := List (String × TeardownSchedule)

/-- Result of `UpdateTeardownSchedule` (§4.4, §7). -/
inductive SchedResult where
  | ok | notFound | invalidDeadline
deriving DecidableEq, Repr

/-- Modelled from the spec: `UpdateTeardownSchedule(name, newDeadline)`
validates that `newDeadline` is null or strictly in the future,
fails `InvalidDeadline` otherwise, and only writes the schedule record on
success (§4.4); the implementing module `deployml.api` is absent from the
sources. -/
def update_teardown_schedule (ss : SchedStore) (now : Int) (n : String)
    (newD : Option Int) : SchedResult × SchedStore :=
  match assocGet ss n with
  | none => (SchedResult.notFound, ss)
  | some sch =>
    match newD with
    | none =>
      (SchedResult.ok,
        assocSet ss n { sch with deadline := none, lastModifiedAt := now })
    | some d =>
      if now < d then
        (SchedResult.ok,
          assocSet ss n { sch with deadline := some d, lastModifiedAt := now })
      else (SchedResult.invalidDeadline, ss)

/-- Modelled from the spec: `GetTeardownStatus(name)` returns the current
deadline and Stack state (§4.4). -/
def get_teardown_status (ss : SchedStore) (st : Store) (n : String) :
    Option (Option Int × StackState) :=
  match assocGet ss n, storeGet st n with
  | some sch, some s => some (sch.deadline, s.state)
  | _, _ => none

/-- A stack already torn down. -/
def stackDestroyed : Stack :=
  ⟨"demo", StackState.Destroyed,
    [⟨"deployment", "deploy-1", ResourceState.Destroyed⟩], none, []⟩

/-- A running stack with one resource and a published URL. -/
def stackRunning : Stack :=
  ⟨"demo", StackState.Running,
    [⟨"deployment", "deploy-1", ResourceState.Ready⟩], some 100,
    [("api", "http://10.0.0.1:30080")]⟩

/-- A snapshot moving the demo stack to `TearingDown`. -/
def snapTearingDown : Stack :=
  ⟨"demo", StackState.TearingDown,
    [⟨"deployment", "deploy-1", ResourceState.Ready⟩], some 100, []⟩

/-- A snapshot moving the demo stack to `Failed`. -/
def snapFailed : Stack :=
  ⟨"demo", StackState.Failed,
    [⟨"deployment", "deploy-1", ResourceState.Errored⟩], some 100, []⟩

/-- A store holding only the destroyed demo stack. -/
def storeDestroyed : Store := [("demo", stackDestroyed)]

/-- A store holding only the running demo stack. -/
def storeRunning : Store := [("demo", stackRunning)]

/-- A driver for which every `Destroy` call succeeds. -/
def drvAllOk : Resource → Option DriverErr := fun _ => none

/-- A schedule store holding one schedule with deadline 5. -/
def schedDemo : SchedStore := [("demo", ⟨"demo", some 5, 0⟩)]

end DeployML

namespace DeployML

/-! ### Helper lemmas -/

theorem binaryPresent_kubectl (env : Env) (rest : List String) :
    binaryPresent env ("kubectl" :: rest) = env.kubectlPresent := rfl

theorem binaryPresent_minikube (env : Env) (rest : List String) :
    binaryPresent env ("minikube" :: rest) = env.minikubePresent := rfl

theorem exec_completed_inv (env : Env) (idx : Nat) (argv : List String)
    (rc : Int) (out : String)
    (h : Env.exec env idx argv = CallRes.completed rc out) :
    binaryPresent env argv = true ∧ rc = env.rc idx := by
  cases hb : binaryPresent env argv with
  | false => simp [Env.exec, hb] at h
  | true =>
    simp [Env.exec, hb] at h
    exact ⟨rfl, h.1.symm⟩

theorem exec_missing_inv (env : Env) (idx : Nat) (argv : List String)
    (h : Env.exec env idx argv = CallRes.missing) :
    binaryPresent env argv = false := by
  cases hb : binaryPresent env argv with
  | false => rfl
  | true => simp [Env.exec, hb] at h

theorem exec_of_present (env : Env) (idx : Nat) (argv : List String)
    (h : binaryPresent env argv = true) :
    Env.exec env idx argv = CallRes.completed (env.rc idx) (env.out idx) := by
  simp [Env.exec, h]

theorem exec_of_absent (env : Env) (idx : Nat) (argv : List String)
    (h : binaryPresent env argv = false) :
    Env.exec env idx argv = CallRes.missing := by
  simp [Env.exec, h]

theorem append_ne_short (a suffix w : String) (h : w.length < suffix.length) :
    a ++ suffix ≠ w := by
  intro he
  have hl := congrArg String.length he
  rw [String.length_append] at hl
  omega

theorem applyCmds_ne (dir : String) :
    applyDeploymentCmd dir ≠ applyServiceCmd dir := by
  intro h
  simp only [applyDeploymentCmd, applyServiceCmd, List.cons.injEq, and_true] at h
  have hl := congrArg String.length h.2.2.2
  rw [String.length_append, String.length_append] at hl
  have h1 : ("/deployment.yaml" : String).length = 16 := rfl
  have h2 : ("/service.yaml" : String).length = 13 := rfl
  omega

theorem applyDeploymentCmd_not_destroy (dir : String) :
    isDestroyCmd (applyDeploymentCmd dir) = false := by
  simp only [isDestroyCmd, applyDeploymentCmd, List.any_cons, List.any_nil,
    Bool.or_eq_false_iff, Bool.or_false]
  refine ⟨by decide, by decide, by decide, ?_, ?_⟩ <;>
    rw [beq_eq_false_iff_ne] <;> exact append_ne_short _ _ _ (by decide)

theorem applyServiceCmd_not_destroy (dir : String) :
    isDestroyCmd (applyServiceCmd dir) = false := by
  simp only [isDestroyCmd, applyServiceCmd, List.any_cons, List.any_nil,
    Bool.or_eq_false_iff, Bool.or_false]
  refine ⟨by decide, by decide, by decide, ?_, ?_⟩ <;>
    rw [beq_eq_false_iff_ne] <;> exact append_ne_short _ _ _ (by decide)

theorem applyDeploymentCmd_not_readiness (dir : String) :
    isReadinessCmd (applyDeploymentCmd dir) = false := by
  simp only [isReadinessCmd, applyDeploymentCmd, List.any_cons, List.any_nil,
    Bool.or_eq_false_iff, Bool.or_false]
  refine ⟨by decide, by decide, by decide, ?_, ?_⟩ <;>
    rw [beq_eq_false_iff_ne] <;> exact append_ne_short _ _ _ (by decide)

theorem applyServiceCmd_not_readiness (dir : String) :
    isReadinessCmd (applyServiceCmd dir) = false := by
  simp only [isReadinessCmd, applyServiceCmd, List.any_cons, List.any_nil,
    Bool.or_eq_false_iff, Bool.or_false]
  refine ⟨by decide, by decide, by decide, ?_, ?_⟩ <;>
    rw [beq_eq_false_iff_ne] <;> exact append_ne_short _ _ _ (by decide)

theorem tailCmds_not_readiness :
    ∀ c ∈ tailCmds, isReadinessCmd c = false := by decide

theorem tailCmds_not_destroy :
    ∀ c ∈ tailCmds, isDestroyCmd c = false := by decide

theorem statusChecks_trace (env : Env) (idx : Nat) (acc : List (List String)) :
    ∃ t, (statusChecks env idx acc).trace = acc ++ t ∧
      t ⊆ tailCmds ∧ t.length ≤ 2 := by
  unfold statusChecks
  cases env.exec idx getPodsCmd with
  | missing => exact ⟨[getPodsCmd], rfl, by decide, by decide⟩
  | completed rc s =>
    cases env.exec (idx + 1) getSvcCmd with
    | missing => exact ⟨[getPodsCmd, getSvcCmd], rfl, by decide, by decide⟩
    | completed rc2 s2 => exact ⟨[getPodsCmd, getSvcCmd], rfl, by decide, by decide⟩

theorem serviceUrlPhase_trace (env : Env) (acc : List (List String)) :
    ∃ t, (serviceUrlPhase env acc).trace = acc ++ serviceUrlCmd :: t ∧
      t ⊆ tailCmds ∧ t.length ≤ 4 := by
  unfold serviceUrlPhase
  cases env.exec 2 serviceUrlCmd with
  | missing => exact ⟨[], by simp, by decide, by decide⟩
  | completed rc2 s2 =>
    dsimp only
    by_cases h2 : rc2 = 0
    · rw [if_pos h2]
      obtain ⟨t, ht, hsub, hlen⟩ := statusChecks_trace env 3 (acc ++ [serviceUrlCmd])
      refine ⟨t, ?_, hsub, by omega⟩
      rw [ht, List.append_assoc]
      rfl
    · rw [if_neg h2]
      cases env.exec 3 getNodePortCmd with
      | missing => exact ⟨[getNodePortCmd], by simp, by decide, by decide⟩
      | completed rc3 s3 =>
        dsimp only
        by_cases h3 : rc3 = 0
        · rw [if_pos h3]
          cases env.exec 4 minikubeIpCmd with
          | missing => exact ⟨[getNodePortCmd, minikubeIpCmd], by simp, by decide, by decide⟩
          | completed rc4 s4 =>
            dsimp only
            obtain ⟨t, ht, hsub, hlen⟩ :=
              statusChecks_trace env 5 (acc ++ [serviceUrlCmd, getNodePortCmd, minikubeIpCmd])
            refine ⟨[getNodePortCmd, minikubeIpCmd] ++ t, ?_, ?_, ?_⟩
            · rw [ht, List.append_assoc]
              rfl
            · rw [List.append_subset]
              exact ⟨by decide, hsub⟩
            · simp only [List.length_append, List.length_cons, List.length_nil]
              omega
        · rw [if_neg h3]
          obtain ⟨t, ht, hsub, hlen⟩ :=
            statusChecks_trace env 4 (acc ++ [serviceUrlCmd, getNodePortCmd])
          refine ⟨[getNodePortCmd] ++ t, ?_, ?_, ?_⟩
          · rw [ht, List.append_assoc]
            rfl
          · rw [List.append_subset]
            exact ⟨by decide, hsub⟩
          · simp only [List.length_append, List.length_cons, List.length_nil]
            omega

theorem statusChecks_ok (env : Env) (idx : Nat) (acc : List (List String))
    (hk : env.kubectlPresent = true) :
    (statusChecks env idx acc).ok = true := by
  unfold statusChecks
  rw [exec_of_present env idx getPodsCmd hk,
    exec_of_present env (idx + 1) getSvcCmd hk]

theorem serviceUrlPhase_ok (env : Env) (acc : List (List String))
    (hk : env.kubectlPresent = true) (hm : env.minikubePresent = true) :
    (serviceUrlPhase env acc).ok = true := by
  unfold serviceUrlPhase
  rw [exec_of_present env 2 serviceUrlCmd hm]
  dsimp only
  by_cases h2 : env.rc 2 = 0
  · rw [if_pos h2]
    exact statusChecks_ok env 3 _ hk
  · rw [if_neg h2, exec_of_present env 3 getNodePortCmd hk]
    dsimp only
    by_cases h3 : env.rc 3 = 0
    · rw [if_pos h3, exec_of_present env 4 minikubeIpCmd hm]
      dsimp only
      exact statusChecks_ok env 5 _ hk
    · rw [if_neg h3]
      exact statusChecks_ok env 4 _ hk

theorem serviceUrlPhase_ok_inv (env : Env) (acc : List (List String))
    (h : (serviceUrlPhase env acc).ok = true) :
    env.minikubePresent = true := by
  by_contra hm
  have hm2 : env.minikubePresent = false := by
    cases hv : env.minikubePresent
    · rfl
    · exact absurd hv hm
  unfold serviceUrlPhase at h
  rw [exec_of_absent env 2 serviceUrlCmd hm2] at h
  simp at h

theorem deploy_guard_fail (fs : FS) (dir : String) (env : Env)
    (h : fs.manifestDirExists = false ∨ fs.deploymentExists = false ∨
      fs.serviceExists = false) :
    deploy_fastapi_to_minikube fs dir env = ⟨false, []⟩ := by
  rcases h with h | h | h
  · simp [deploy_fastapi_to_minikube, h]
  · cases hm : fs.manifestDirExists <;>
      simp [deploy_fastapi_to_minikube, hm, h]
  · cases hm : fs.manifestDirExists <;>
      simp [deploy_fastapi_to_minikube, hm, h]

theorem deploy_guards_pass (fs : FS) (dir : String) (env : Env)
    (h1 : fs.manifestDirExists = true) (h2 : fs.deploymentExists = true)
    (h3 : fs.serviceExists = true) :
    deploy_fastapi_to_minikube fs dir env =
      (match env.exec 0 (applyDeploymentCmd dir) with
      | CallRes.missing => ⟨false, [applyDeploymentCmd dir]⟩
      | CallRes.completed rc0 _ =>
        if rc0 ≠ 0 then ⟨false, [applyDeploymentCmd dir]⟩
        else
          match env.exec 1 (applyServiceCmd dir) with
          | CallRes.missing =>
            ⟨false, [applyDeploymentCmd dir, applyServiceCmd dir]⟩
          | CallRes.completed rc1 _ =>
            if rc1 ≠ 0 then
              ⟨false, [applyDeploymentCmd dir, applyServiceCmd dir]⟩
            else
              serviceUrlPhase env [applyDeploymentCmd dir, applyServiceCmd dir]) := by
  simp [deploy_fastapi_to_minikube, h1, h2, h3]

theorem deploy_deployment_apply_fails (fs : FS) (dir : String) (env : Env)
    (h1 : fs.manifestDirExists = true) (h2 : fs.deploymentExists = true)
    (h3 : fs.serviceExists = true) (hk : env.kubectlPresent = true)
    (r0 : env.rc 0 ≠ 0) :
    deploy_fastapi_to_minikube fs dir env = ⟨false, [applyDeploymentCmd dir]⟩ := by
  rw [deploy_guards_pass fs dir env h1 h2 h3,
    exec_of_present env 0 (applyDeploymentCmd dir) hk]
  dsimp only
  rw [if_pos r0]

theorem deploy_service_apply_fails (fs : FS) (dir : String) (env : Env)
    (h1 : fs.manifestDirExists = true) (h2 : fs.deploymentExists = true)
    (h3 : fs.serviceExists = true) (hk : env.kubectlPresent = true)
    (r0 : env.rc 0 = 0) (r1 : env.rc 1 ≠ 0) :
    deploy_fastapi_to_minikube fs dir env =
      ⟨false, [applyDeploymentCmd dir, applyServiceCmd dir]⟩ := by
  rw [deploy_guards_pass fs dir env h1 h2 h3,
    exec_of_present env 0 (applyDeploymentCmd dir) hk]
  dsimp only
  rw [if_neg (by omega : ¬ env.rc 0 ≠ 0),
    exec_of_present env 1 (applyServiceCmd dir) hk]
  dsimp only
  rw [if_pos r1]

theorem deploy_applies_succeed (fs : FS) (dir : String) (env : Env)
    (h1 : fs.manifestDirExists = true) (h2 : fs.deploymentExists = true)
    (h3 : fs.serviceExists = true) (hk : env.kubectlPresent = true)
    (r0 : env.rc 0 = 0) (r1 : env.rc 1 = 0) :
    deploy_fastapi_to_minikube fs dir env =
      serviceUrlPhase env [applyDeploymentCmd dir, applyServiceCmd dir] := by
  rw [deploy_guards_pass fs dir env h1 h2 h3,
    exec_of_present env 0 (applyDeploymentCmd dir) hk]
  dsimp only
  rw [if_neg (by omega : ¬ env.rc 0 ≠ 0),
    exec_of_present env 1 (applyServiceCmd dir) hk]
  dsimp only
  rw [if_neg (by omega : ¬ env.rc 1 ≠ 0)]

/-- Master case analysis: every run of `deploy_fastapi_to_minikube` issues
either no subprocess call, just the deployment apply, or both applies
followed by at most five further non-apply commands; the service apply is
reached only with `kubectl` installed and a zero deployment-apply exit. -/
theorem deploy_trace_cases (fs : FS) (dir : String) (env : Env) :
    (deploy_fastapi_to_minikube fs dir env).trace = [] ∨
    (deploy_fastapi_to_minikube fs dir env).trace = [applyDeploymentCmd dir] ∨
    (∃ t, (deploy_fastapi_to_minikube fs dir env).trace =
        applyDeploymentCmd dir :: applyServiceCmd dir :: t ∧
      t ⊆ tailCmds ∧ t.length ≤ 5 ∧
      env.kubectlPresent = true ∧ env.rc 0 = 0 ∧
      (t = [] ∨ ∃ t2, t = serviceUrlCmd :: t2)) := by
  by_cases h1 : fs.manifestDirExists = true
  · by_cases h2 : fs.deploymentExists = true
    · by_cases h3 : fs.serviceExists = true
      · cases hk : env.kubectlPresent with
        | false =>
          right; left
          rw [deploy_guards_pass fs dir env h1 h2 h3,
            exec_of_absent env 0 (applyDeploymentCmd dir) hk]
        | true =>
          by_cases r0 : env.rc 0 = 0
          · by_cases r1 : env.rc 1 = 0
            · right; right
              rw [deploy_applies_succeed fs dir env h1 h2 h3 hk r0 r1]
              obtain ⟨t, ht, hsub, hlen⟩ :=
                serviceUrlPhase_trace env [applyDeploymentCmd dir, applyServiceCmd dir]
              refine ⟨serviceUrlCmd :: t, ?_, ?_, ?_, rfl, r0, Or.inr ⟨t, rfl⟩⟩
              · rw [ht]; rfl
              · rw [List.cons_subset]
                exact ⟨by decide, hsub⟩
              · simp only [List.length_cons]
                omega
            · right; right
              rw [deploy_service_apply_fails fs dir env h1 h2 h3 hk r0 r1]
              exact ⟨[], rfl, by decide, by decide, rfl, r0, Or.inl rfl⟩
          · right; left
            rw [deploy_deployment_apply_fails fs dir env h1 h2 h3 hk r0]
      · left
        rw [deploy_guard_fail fs dir env (Or.inr (Or.inr (by simpa using h3)))]
    · left
      rw [deploy_guard_fail fs dir env (Or.inr (Or.inl (by simpa using h2)))]
  · left
    rw [deploy_guard_fail fs dir env (Or.inl (by simpa using h1))]

/-- If a run returns `True`, both binaries were installed and both
`kubectl apply` calls exited 0. -/
theorem deploy_ok_inv (fs : FS) (dir : String) (env : Env)
    (h : (deploy_fastapi_to_minikube fs dir env).ok = true) :
    env.kubectlPresent = true ∧ env.minikubePresent = true ∧
      env.rc 0 = 0 ∧ env.rc 1 = 0 := by
  by_cases h1 : fs.manifestDirExists = true
  · by_cases h2 : fs.deploymentExists = true
    · by_cases h3 : fs.serviceExists = true
      · cases hk : env.kubectlPresent with
        | false =>
          rw [deploy_guards_pass fs dir env h1 h2 h3,
            exec_of_absent env 0 (applyDeploymentCmd dir) hk] at h
          simp at h
        | true =>
          by_cases r0 : env.rc 0 = 0
          · by_cases r1 : env.rc 1 = 0
            · rw [deploy_applies_succeed fs dir env h1 h2 h3 hk r0 r1] at h
              exact ⟨rfl, serviceUrlPhase_ok_inv env _ h, r0, r1⟩
            · rw [deploy_service_apply_fails fs dir env h1 h2 h3 hk r0 r1] at h
              simp at h
          · rw [deploy_deployment_apply_fails fs dir env h1 h2 h3 hk r0] at h
            simp at h
      · rw [deploy_guard_fail fs dir env (Or.inr (Or.inr (by simpa using h3)))] at h
        simp at h
    · rw [deploy_guard_fail fs dir env (Or.inr (Or.inl (by simpa using h2)))] at h
      simp at h
  · rw [deploy_guard_fail fs dir env (Or.inl (by simpa using h1))] at h
    simp at h

theorem assocGet_assocSet_eq {β : Type} (l : List (String × β)) (n : String)
    (x : β) (h : (assocGet l n).isSome) :
    assocGet (assocSet l n x) n = some x := by
  induction l with
  | nil => simp [assocGet] at h
  | cons p rest ih =>
    obtain ⟨k, v⟩ := p
    by_cases hk : k = n
    · simp [assocGet, assocSet, hk]
    · simp only [assocGet, assocSet, if_neg hk] at h ⊢
      exact ih h

end DeployML

namespace DeployML

example :
    (deploy_fastapi_to_minikube fsAll "m" envAllZero) =
      ⟨true, [applyDeploymentCmd "m", applyServiceCmd "m", serviceUrlCmd,
        getPodsCmd, getSvcCmd]⟩ := by decide

example :
    (deploy_fastapi_to_minikube fsAll "m" envServiceApplyFails) =
      ⟨false, [applyDeploymentCmd "m", applyServiceCmd "m"]⟩ := by decide

example :
    (deploy_fastapi_to_minikube fsAll "m" envNoMinikube) =
      ⟨false, [applyDeploymentCmd "m", applyServiceCmd "m", serviceUrlCmd]⟩ := by
  decide

example :
    (deploy_fastapi_to_minikube fsAll "m" envAllFail) =
      ⟨false, [applyDeploymentCmd "m"]⟩ := by decide

example : start_minikube envNoMinikube = false := by decide

example : start_minikube envAllZero = true := by decide

end DeployML

namespace DeployML

/-! ### Further helper lemmas -/

theorem serviceUrlCmd_ne_applyDeploymentCmd (dir : String) :
    serviceUrlCmd ≠ applyDeploymentCmd dir := by
  intro h
  simp only [serviceUrlCmd, applyDeploymentCmd, List.cons.injEq] at h
  exact absurd h.1 (by decide)

theorem serviceUrlCmd_ne_applyServiceCmd (dir : String) :
    serviceUrlCmd ≠ applyServiceCmd dir := by
  intro h
  simp only [serviceUrlCmd, applyServiceCmd, List.cons.injEq] at h
  exact absurd h.1 (by decide)

theorem subset_tailCmds_any_readiness (t : List (List String))
    (h : t ⊆ tailCmds) : t.any isReadinessCmd = false := by
  rw [List.any_eq_false]
  intro x hx
  rw [tailCmds_not_readiness x (h hx)]
  simp

end DeployML

namespace DeployML

/-! ### Claim theorems -/

/-- Claim C1, counterexample: with both manifests present, `kubectl`
installed, the deployment apply exiting 0 and the service apply exiting 2,
`deploy_fastapi_to_minikube` returns `False` having issued exactly the two
apply calls — no destroy or delete call is issued for the already-applied
deployment before returning. -/
theorem deploy_service_apply_failure_without_cleanup_cex :
    deploy_fastapi_to_minikube fsAll "manifests" envServiceApplyFails2 =
      ⟨false, [applyDeploymentCmd "manifests", applyServiceCmd "manifests"]⟩ ∧
    (deploy_fastapi_to_minikube fsAll "manifests"
        envServiceApplyFails2).trace.any isDestroyCmd = false ∧
    envServiceApplyFails2.rc 0 = 0 ∧ envServiceApplyFails2.rc 1 ≠ 0 := by
  refine ⟨by decide, by decide, by decide, by decide⟩

/-- Claim C1, amended: in every run in which applying `service.yaml` fails
after `deployment.yaml` was successfully applied, the function returns
`False` with a trace of exactly the two apply calls; no destroy or delete
call is ever issued for the already-applied deployment (no partial-failure
cleanup is performed). -/
theorem deploy_service_apply_failure_no_destroy (fs : FS) (dir : String)
    (env : Env) (h1 : fs.manifestDirExists = true)
    (h2 : fs.deploymentExists = true) (h3 : fs.serviceExists = true)
    (hk : env.kubectlPresent = true) (r0 : env.rc 0 = 0) (r1 : env.rc 1 ≠ 0) :
    deploy_fastapi_to_minikube fs dir env =
      ⟨false, [applyDeploymentCmd dir, applyServiceCmd dir]⟩ ∧
    (deploy_fastapi_to_minikube fs dir env).trace.any isDestroyCmd = false := by
  have he := deploy_service_apply_fails fs dir env h1 h2 h3 hk r0 r1
  refine ⟨he, ?_⟩
  rw [he]
  simp [List.any_cons, List.any_nil, applyDeploymentCmd_not_destroy,
    applyServiceCmd_not_destroy]

/-- Witness for the amended C1 at a concrete run. -/
theorem deploy_service_apply_failure_no_destroy_witness :
    deploy_fastapi_to_minikube fsAll "m" envServiceApplyFails =
      ⟨false, [applyDeploymentCmd "m", applyServiceCmd "m"]⟩ ∧
    (deploy_fastapi_to_minikube fsAll "m"
        envServiceApplyFails).trace.any isDestroyCmd = false :=
  deploy_service_apply_failure_no_destroy fsAll "m" envServiceApplyFails
    (by decide) (by decide) (by decide) (by decide) (by decide) (by decide)

/-- Claim C2, counterexample: a fully successful run issues the
`minikube service --url` lookup as its third call, immediately after the two
`kubectl apply` calls, and issues no readiness-checking command at any
point, yet returns `True` — the URL is resolved merely after the create
calls return, never after a confirmed readiness condition. -/
theorem deploy_url_without_readiness_cex :
    deploy_fastapi_to_minikube fsAll "manifests" envAllZero =
      ⟨true, [applyDeploymentCmd "manifests", applyServiceCmd "manifests",
        serviceUrlCmd, getPodsCmd, getSvcCmd]⟩ ∧
    (deploy_fastapi_to_minikube fsAll "manifests"
        envAllZero).trace.any isReadinessCmd = false := by
  refine ⟨by decide, by decide⟩

/-- Claim C2, amended: whenever the service-URL lookup is issued at all, it
is issued directly after the two `kubectl apply` calls — the first three
calls of the run are exactly the two applies followed by the URL lookup —
and no readiness-checking command is issued anywhere in the run. -/
theorem deploy_url_resolution_merely_after_applies (fs : FS) (dir : String)
    (env : Env)
    (h : serviceUrlCmd ∈ (deploy_fastapi_to_minikube fs dir env).trace) :
    (deploy_fastapi_to_minikube fs dir env).trace.take 3 =
      [applyDeploymentCmd dir, applyServiceCmd dir, serviceUrlCmd] ∧
    (deploy_fastapi_to_minikube fs dir env).trace.any isReadinessCmd = false := by
  rcases deploy_trace_cases fs dir env with h0 | h0 |
    ⟨t, ht, hsub, hlen, hk, hr0, hte⟩
  · rw [h0] at h
    simp at h
  · rw [h0] at h
    rw [List.mem_singleton] at h
    exact absurd h (serviceUrlCmd_ne_applyDeploymentCmd dir)
  · have hany : (deploy_fastapi_to_minikube fs dir env).trace.any
        isReadinessCmd = false := by
      rw [ht]
      simp [List.any_cons, applyDeploymentCmd_not_readiness,
        applyServiceCmd_not_readiness, subset_tailCmds_any_readiness t hsub]
    refine ⟨?_, hany⟩
    rcases hte with rfl | ⟨t2, rfl⟩
    · rw [ht] at h
      rcases List.mem_pair.mp h with h | h
      · exact absurd h (serviceUrlCmd_ne_applyDeploymentCmd dir)
      · exact absurd h (serviceUrlCmd_ne_applyServiceCmd dir)
    · rw [ht]
      rfl

/-- Witness for the amended C2 at a concrete run. -/
theorem deploy_url_resolution_merely_after_applies_witness :
    (deploy_fastapi_to_minikube fsAll "m" envAllZero).trace.take 3 =
      [applyDeploymentCmd "m", applyServiceCmd "m", serviceUrlCmd] ∧
    (deploy_fastapi_to_minikube fsAll "m"
        envAllZero).trace.any isReadinessCmd = false :=
  deploy_url_resolution_merely_after_applies fsAll "m" envAllZero (by decide)

/-- Claim C3, counterexample: four failed runs with four different causes —
`minikube` binary missing, `minikube start` exiting nonzero, the deployment
apply failing, the service apply failing — all report failure as the same
undifferentiated boolean `False`; neither `start_minikube` nor
`deploy_fastapi_to_minikube` returns anything identifying the resource,
phase or error kind. -/
theorem bare_false_failure_reports_cex :
    start_minikube envNoMinikube = false ∧
    start_minikube envAllFail = false ∧
    (deploy_fastapi_to_minikube fsAll "manifests" envDeploymentApplyFails).ok
      = false ∧
    (deploy_fastapi_to_minikube fsAll "manifests" envServiceApplyFails).ok
      = false := by
  refine ⟨by decide, by decide, by decide, by decide⟩

/-- Claim C3, amended: `start_minikube` and `deploy_fastapi_to_minikube`
report every failure as the bare boolean `False`: a missing-binary failure
and a nonzero-exit failure of `minikube start` return the identical value,
and a deployment-apply failure and a service-apply failure of the deploy
return the identical value — the caller cannot recover the resource, phase
or error kind from the result. -/
theorem failure_reports_undifferentiated :
    (∀ env env2 : Env, env.minikubePresent = false →
      env2.minikubePresent = true → env2.rc 0 ≠ 0 →
      start_minikube env = false ∧ start_minikube env2 = false) ∧
    (∀ (fs : FS) (dir : String) (env env2 : Env),
      fs.manifestDirExists = true → fs.deploymentExists = true →
      fs.serviceExists = true →
      env.kubectlPresent = true → env.rc 0 ≠ 0 →
      env2.kubectlPresent = true → env2.rc 0 = 0 → env2.rc 1 ≠ 0 →
      (deploy_fastapi_to_minikube fs dir env).ok = false ∧
      (deploy_fastapi_to_minikube fs dir env2).ok = false) := by
  constructor
  · intro env env2 hm hm2 hr
    constructor
    · unfold start_minikube
      rw [exec_of_absent env 0 ["minikube", "start"] hm]
    · unfold start_minikube
      rw [exec_of_present env2 0 ["minikube", "start"] hm2]
      dsimp only
      exact decide_eq_false hr
  · intro fs dir env env2 h1 h2 h3 hk hr hk2 hr0 hr1
    constructor
    · rw [deploy_deployment_apply_fails fs dir env h1 h2 h3 hk hr]
    · rw [deploy_service_apply_fails fs dir env2 h1 h2 h3 hk2 hr0 hr1]

/-- Witness for the amended C3 at concrete runs. -/
theorem failure_reports_undifferentiated_witness :
    (start_minikube envNoMinikube = false ∧ start_minikube envAllFail = false) ∧
    ((deploy_fastapi_to_minikube fsAll "m" envDeploymentApplyFails).ok = false ∧
      (deploy_fastapi_to_minikube fsAll "m" envServiceApplyFails).ok = false) :=
  ⟨failure_reports_undifferentiated.1 envNoMinikube envAllFail
      (by decide) (by decide) (by decide),
    failure_reports_undifferentiated.2 fsAll "m" envDeploymentApplyFails
      envServiceApplyFails (by decide) (by decide) (by decide) (by decide)
      (by decide) (by decide) (by decide) (by decide)⟩

end DeployML

namespace DeployML

/-- Claim C4, counterexample: a fully successful run declares success
having issued no readiness-checking command at all (and no command is ever
retried: the whole trace is five distinct calls) — there is no
`CheckReady` polling loop between resource creation and the success
report. -/
theorem deploy_success_without_polling_cex :
    deploy_fastapi_to_minikube fsAll "manifests" envAllZeroOut =
      ⟨true, [applyDeploymentCmd "manifests", applyServiceCmd "manifests",
        serviceUrlCmd, getPodsCmd, getSvcCmd]⟩ ∧
    (deploy_fastapi_to_minikube fsAll "manifests"
        envAllZeroOut).trace.any isReadinessCmd = false := by
  refine ⟨by decide, by decide⟩

/-- Claim C4, amended: `deploy_fastapi_to_minikube` performs no readiness
polling at all — no run issues a readiness-checking command — and every
run terminates after at most seven subprocess invocations (there is no
retry or backoff loop). -/
theorem deploy_no_polling_bounded (fs : FS) (dir : String) (env : Env) :
    (deploy_fastapi_to_minikube fs dir env).trace.length ≤ 7 ∧
    (deploy_fastapi_to_minikube fs dir env).trace.any isReadinessCmd = false := by
  rcases deploy_trace_cases fs dir env with h0 | h0 |
    ⟨t, ht, hsub, hlen, hk, hr0, hte⟩
  · rw [h0]
    exact ⟨by decide, by decide⟩
  · rw [h0]
    refine ⟨by simp, ?_⟩
    simp [List.any_cons, List.any_nil, applyDeploymentCmd_not_readiness]
  · rw [ht]
    constructor
    · simp only [List.length_cons]
      omega
    · simp [List.any_cons, applyDeploymentCmd_not_readiness,
        applyServiceCmd_not_readiness, subset_tailCmds_any_readiness t hsub]

/-- Claim C5: the deployment manifest is always applied before the service
manifest — whenever the `service.yaml` apply is issued, the first two calls
of the run are exactly the `deployment.yaml` apply followed by the
`service.yaml` apply — and the service apply is issued only when the
deployment apply succeeded (`kubectl` installed and exit code 0). -/
theorem deploy_applies_in_dependency_order (fs : FS) (dir : String)
    (env : Env)
    (h : applyServiceCmd dir ∈ (deploy_fastapi_to_minikube fs dir env).trace) :
    (deploy_fastapi_to_minikube fs dir env).trace.take 2 =
      [applyDeploymentCmd dir, applyServiceCmd dir] ∧
    env.kubectlPresent = true ∧ env.rc 0 = 0 := by
  rcases deploy_trace_cases fs dir env with h0 | h0 |
    ⟨t, ht, hsub, hlen, hk, hr0, hte⟩
  · rw [h0] at h
    simp at h
  · rw [h0] at h
    rw [List.mem_singleton] at h
    exact absurd h.symm (applyCmds_ne dir)
  · rw [ht]
    exact ⟨rfl, hk, hr0⟩

/-- Witness for C5 at a concrete run. -/
theorem deploy_applies_in_dependency_order_witness :
    (deploy_fastapi_to_minikube fsAll "m" envAllZeroOut).trace.take 2 =
      [applyDeploymentCmd "m", applyServiceCmd "m"] ∧
    envAllZeroOut.kubectlPresent = true ∧ envAllZeroOut.rc 0 = 0 :=
  deploy_applies_in_dependency_order fsAll "m" envAllZeroOut (by decide)

/-- Claim C9: when the manifest directory does not exist, or either
manifest file is missing, `deploy_fastapi_to_minikube` returns `False`
having spawned no subprocess at all (the trace is empty). -/
theorem deploy_no_subprocess_without_manifests (fs : FS) (dir : String)
    (env : Env)
    (h : fs.manifestDirExists = false ∨ fs.deploymentExists = false ∨
      fs.serviceExists = false) :
    deploy_fastapi_to_minikube fs dir env = ⟨false, []⟩ :=
  deploy_guard_fail fs dir env h

/-- Witness for C9 at a concrete run (missing `service.yaml`). -/
theorem deploy_no_subprocess_without_manifests_witness :
    deploy_fastapi_to_minikube fsNoService "m" envAllZero = ⟨false, []⟩ :=
  deploy_no_subprocess_without_manifests fsNoService "m" envAllZero
    (Or.inr (Or.inr (by decide)))

/-- Claim C10, counterexample: with both manifests present, `kubectl`
installed and both applies exiting 0, but the `minikube` binary missing,
the run returns `False` — the result is not independent of the service-URL
resolution step, and a missing `minikube` binary is a third cause of
`False` beyond a failed apply and a missing `kubectl`. -/
theorem deploy_false_after_successful_applies_cex :
    deploy_fastapi_to_minikube fsAll "manifests" envNoMinikube =
      ⟨false, [applyDeploymentCmd "manifests", applyServiceCmd "manifests",
        serviceUrlCmd]⟩ ∧
    envNoMinikube.kubectlPresent = true ∧
    envNoMinikube.rc 0 = 0 ∧ envNoMinikube.rc 1 = 0 := by
  refine ⟨by decide, by decide, by decide, by decide⟩

/-- Claim C10, amended: when both manifests are present, both binaries are
installed and both applies exit 0, the function returns `True` regardless
of the exit codes of the `minikube service --url` lookup and of the
NodePort fallback; conversely a run returns `True` only when both
binaries were installed and both applies exited 0 — so `False` arises
exactly from a failed apply, a missing `kubectl`, or a missing
`minikube`. -/
theorem deploy_result_determined_by_applies_and_binaries (fs : FS)
    (dir : String) (env : Env) :
    (fs.manifestDirExists = true → fs.deploymentExists = true →
      fs.serviceExists = true →
      env.kubectlPresent = true → env.minikubePresent = true →
      env.rc 0 = 0 → env.rc 1 = 0 →
      (deploy_fastapi_to_minikube fs dir env).ok = true) ∧
    ((deploy_fastapi_to_minikube fs dir env).ok = true →
      env.kubectlPresent = true ∧ env.minikubePresent = true ∧
      env.rc 0 = 0 ∧ env.rc 1 = 0) := by
  constructor
  · intro h1 h2 h3 hk hm r0 r1
    rw [deploy_applies_succeed fs dir env h1 h2 h3 hk r0 r1]
    exact serviceUrlPhase_ok env _ hk hm
  · exact deploy_ok_inv fs dir env

/-- Witness for the amended C10: a concrete successful run in which the
URL lookup exits nonzero (exit code 1 for every call after the applies
would hit the fallback path; here all exit 0) still returns `True`. -/
theorem deploy_result_determined_by_applies_and_binaries_witness :
    (deploy_fastapi_to_minikube fsAll "m" envAllZero).ok = true :=
  (deploy_result_determined_by_applies_and_binaries fsAll "m" envAllZero).1
    (by decide) (by decide) (by decide) (by decide) (by decide) (by decide)
    (by decide)

end DeployML

namespace DeployML

/-- Claim C6: `Teardown` is idempotent on a destroyed stack — if the stored
stack is in state `Destroyed`, a `Teardown` call returns success and leaves
the Store unchanged, and a second consecutive call returns success again
with the Store still unchanged. -/
theorem teardown_idempotent_on_destroyed (st : Store)
    (drv : Resource → Option DriverErr) (n : String) (s : Stack)
    (hget : storeGet st n = some s) (hs : s.state = StackState.Destroyed) :
    teardown st drv n = (TeardownOutcome.success, st) ∧
    teardown (teardown st drv n).2 drv n = (TeardownOutcome.success, st) := by
  have h1 : teardown st drv n = (TeardownOutcome.success, st) := by
    unfold teardown
    rw [hget]
    dsimp only
    rw [if_pos hs]
  exact ⟨h1, by rw [h1]; exact h1⟩

/-- Witness for C6 at a concrete destroyed stack. -/
theorem teardown_idempotent_on_destroyed_witness :
    teardown storeDestroyed drvAllOk "demo" =
      (TeardownOutcome.success, storeDestroyed) ∧
    teardown (teardown storeDestroyed drvAllOk "demo").2 drvAllOk "demo" =
      (TeardownOutcome.success, storeDestroyed) :=
  teardown_idempotent_on_destroyed storeDestroyed drvAllOk "demo"
    stackDestroyed (by decide) (by decide)

/-- Claim C7: when the schedule record exists, `UpdateTeardownSchedule`
accepts `newDeadline` exactly when it is null or strictly later than `now`,
fails with `InvalidDeadline` exactly when the deadline is non-null and not
in the future, and on such a failure leaves the stored record untouched —
a subsequent `GetTeardownStatus` returns the prior deadline. -/
theorem update_teardown_schedule_validates_deadline (ss : SchedStore)
    (st : Store) (now : Int) (n : String) (newD : Option Int)
    (sch : TeardownSchedule) (hget : assocGet ss n = some sch) :
    ((update_teardown_schedule ss now n newD).1 = SchedResult.ok ↔
      newD = none ∨ ∃ d, newD = some d ∧ now < d) ∧
    ((update_teardown_schedule ss now n newD).1 = SchedResult.invalidDeadline ↔
      ∃ d, newD = some d ∧ d ≤ now) ∧
    ((update_teardown_schedule ss now n newD).1 = SchedResult.invalidDeadline →
      (update_teardown_schedule ss now n newD).2 = ss ∧
      get_teardown_status (update_teardown_schedule ss now n newD).2 st n =
        get_teardown_status ss st n) := by
  unfold update_teardown_schedule
  rw [hget]
  dsimp only
  cases newD with
  | none =>
    dsimp only
    refine ⟨by simp, by simp, by simp⟩
  | some d =>
    dsimp only
    by_cases hlt : now < d
    · rw [if_pos hlt]
      refine ⟨by simp [hlt], ?_, by simp⟩
      simp only [Prod.fst]
      constructor
      · intro h
        exact absurd h (by simp)
      · rintro ⟨d2, hd2, hle⟩
        rw [Option.some.injEq] at hd2
        omega
    · rw [if_neg hlt]
      refine ⟨?_, ?_, fun _ => ⟨rfl, rfl⟩⟩
      · simp only [Prod.fst]
        constructor
        · intro h
          exact absurd h (by simp)
        · rintro (h | ⟨d2, hd2, hlt2⟩)
          · exact absurd h (by simp)
          · rw [Option.some.injEq] at hd2
            omega
      · simp only [Prod.fst]
        constructor
        · intro _
          exact ⟨d, rfl, by omega⟩
        · intro _
          trivial

/-- Witness for C7: rescheduling to a deadline in the past fails with
`InvalidDeadline` and leaves the stored deadline readable unchanged. -/
theorem update_teardown_schedule_validates_deadline_witness :
    ((update_teardown_schedule schedDemo 10 "demo" (some 3)).1 =
        SchedResult.ok ↔
      (some 3 : Option Int) = none ∨ ∃ d, (some 3 : Option Int) = some d ∧ (10 : Int) < d) ∧
    ((update_teardown_schedule schedDemo 10 "demo" (some 3)).1 =
        SchedResult.invalidDeadline ↔
      ∃ d, (some 3 : Option Int) = some d ∧ d ≤ (10 : Int)) ∧
    ((update_teardown_schedule schedDemo 10 "demo" (some 3)).1 =
        SchedResult.invalidDeadline →
      (update_teardown_schedule schedDemo 10 "demo" (some 3)).2 = schedDemo ∧
      get_teardown_status (update_teardown_schedule schedDemo 10 "demo"
          (some 3)).2 storeRunning "demo" =
        get_teardown_status schedDemo storeRunning "demo") :=
  update_teardown_schedule_validates_deadline schedDemo storeRunning 10
    "demo" (some 3) ⟨"demo", some 5, 0⟩ (by decide)

/-- Claim C8: two writers attempting to transition the same stack from the
same expected state through the Store CAS — in either interleaving the
first write succeeds, the second fails `Conflict` and is surfaced by the
Orchestrator as `Busy`, and the stored record afterwards is the winning
snapshot (the loser never overwrites it). -/
theorem cas_race_single_winner (st : Store) (n : String) (exp : StackState)
    (s s1 s2 : Stack) (hget : storeGet st n = some s) (hs : s.state = exp)
    (h1 : s1.state ≠ exp) (h2 : s2.state ≠ exp) :
    (orchTransition st n exp s1 = Except.ok (assocSet st n s1) ∧
      orchTransition (assocSet st n s1) n exp s2 =
        Except.error OrchError.Busy ∧
      storeGet (assocSet st n s1) n = some s1) ∧
    (orchTransition st n exp s2 = Except.ok (assocSet st n s2) ∧
      orchTransition (assocSet st n s2) n exp s1 =
        Except.error OrchError.Busy ∧
      storeGet (assocSet st n s2) n = some s2) := by
  have hsome : (assocGet st n).isSome := by
    rw [show assocGet st n = some s from hget]
    rfl
  have hg1 : storeGet (assocSet st n s1) n = some s1 :=
    assocGet_assocSet_eq st n s1 hsome
  have hg2 : storeGet (assocSet st n s2) n = some s2 :=
    assocGet_assocSet_eq st n s2 hsome
  refine ⟨⟨?_, ?_, hg1⟩, ⟨?_, ?_, hg2⟩⟩
  · unfold orchTransition compareAndSwap
    rw [hget]
    dsimp only
    rw [if_pos hs]
  · unfold orchTransition compareAndSwap
    rw [hg1]
    dsimp only
    rw [if_neg h1]
  · unfold orchTransition compareAndSwap
    rw [hget]
    dsimp only
    rw [if_pos hs]
  · unfold orchTransition compareAndSwap
    rw [hg2]
    dsimp only
    rw [if_neg h2]

/-- Witness for C8: two concrete writers race to move the running demo
stack out of `Running`; in both interleavings exactly one succeeds, the
other observes `Busy`, and the snapshot of the winner is what remains stored. -/
theorem cas_race_single_winner_witness :
    (orchTransition storeRunning "demo" StackState.Running snapTearingDown =
        Except.ok (assocSet storeRunning "demo" snapTearingDown) ∧
      orchTransition (assocSet storeRunning "demo" snapTearingDown) "demo"
          StackState.Running snapFailed = Except.error OrchError.Busy ∧
      storeGet (assocSet storeRunning "demo" snapTearingDown) "demo" =
        some snapTearingDown) ∧
    (orchTransition storeRunning "demo" StackState.Running snapFailed =
        Except.ok (assocSet storeRunning "demo" snapFailed) ∧
      orchTransition (assocSet storeRunning "demo" snapFailed) "demo"
          StackState.Running snapTearingDown = Except.error OrchError.Busy ∧
      storeGet (assocSet storeRunning "demo" snapFailed) "demo" =
        some snapFailed) :=
  cas_race_single_winner storeRunning "demo" StackState.Running stackRunning
    snapTearingDown snapFailed (by decide) (by decide) (by decide) (by decide)

end DeployML
